import Mathlib

/-!
Shallow embedding of `src/agenticv2.py` (Agentic AI Planner).

The plan document is a JSON-like dict in the source; here it is a structure
whose `weeks` field is an insertion-ordered association list, matching a
Python dict with unique keys.  Machine arithmetic in the source is Python
arbitrary-precision `int`; the one float expression
(`int(completed_tasks/total_tasks*100)`) is modelled exactly as IEEE-754
binary64 arithmetic: each of the division and the multiplication rounds its
exact rational result to a 53-bit significand, nearest value with ties to
even, and `int()` then truncates toward zero.  Overflow and subnormals are
not modelled; they would need a task count beyond 2^1020, unreachable for
an in-memory plan.  This reproduces the program's float results, e.g.
29 of 50 tasks gives 57 (not the exact floor 58), because
`29/50*100 = 57.99999999999999` in binary64.
-/

namespace Agentic

/-- One week's entry: field names follow the JSON keys used by the source
(`Tasks`, `Resources`, `Reflection`, `Mentor_Tip`). -/
structure WeekEntry where
  Tasks : List String
  Resources : List String
  Reflection : String
  Mentor_Tip : String
deriving Repr, DecidableEq, Inhabited

/-- The root plan document: `milestones`, `weeks` (insertion-ordered mapping
from week label to entry), `mentor_notes`. -/
structure Plan where
  milestones : List String
  weeks : List (String × WeekEntry)
  mentor_notes : String
deriving Repr, DecidableEq, Inhabited

/-- `milestones_templates` from `fallback_plan`. -/
def milestones_templates : List String :=
  ["Foundation", "Core Skills", "Practice & Projects", "Final Project"]

/-- Fixed 3-item tip list passed to `random.choice` in `fallback_plan`. -/
def tip_choices : List String :=
  ["Consistency beats intensity. Try daily small steps.",
   "Break tasks into 25-minute Pomodoro sprints.",
   "Google errors, read docs, then refactor."]

/-- The week entry built by `fallback_plan` for week `w`; `pick` is the
outcome of `random.choice` over `tip_choices`. -/
def fallback_week (mentor_style : String) (w : Nat) (pick : Fin 3) : WeekEntry :=
  { Tasks := [mentor_style ++ " Task: Spend focused 60-90 minutes on a core topic (week "
                ++ toString w ++ ")",
              "Practice: 30 minutes of hands-on exercises (week " ++ toString w ++ ")"],
    Resources := ["Official docs / Quick YouTube tutorial", "A short project or code-along"],
    Reflection := "What was the biggest challenge this week and one action to fix it?",
    Mentor_Tip := tip_choices.getD pick.val "" }

/-- `fallback_plan(goal, weeks, mentor_style)`.  `weeks` is coerced by
`int(max(1, weeks))`; `pick w` models the random tip choice made for week
`w` (the only nondeterminism in the program). -/
def fallback_plan (goal : String) (weeks : Int) (mentor_style : String)
    (pick : Nat → Fin 3) : Plan :=
  let w : Nat := (max 1 weeks).toNat
  { milestones :=
      ((List.range (min 4 w)).map fun i =>
        milestones_templates.getD i "" ++ " - Week " ++ toString (i + 1))
      ++ (if w > 4 then ["Polish & Review"] else []),
    weeks := (List.range w).map fun i =>
      ("Week " ++ toString (i + 1), fallback_week mentor_style (i + 1) (pick (i + 1))),
    mentor_notes := "As " ++ mentor_style ++ ", I'll push you to be consistent. Goal: "
      ++ goal ++ " in " ++ toString w ++ " weeks." }

/-- All tasks of a plan flattened in week order then in-week order, as the
two `extend` loops in `recompress_plan` build them. -/
def all_tasks (p : Plan) : List String :=
  (p.weeks.map fun kv => kv.2.Tasks).flatten

/-- All resources flattened the same way. -/
def all_resources (p : Plan) : List String :=
  (p.weeks.map fun kv => kv.2.Resources).flatten

/-- `recompress_plan(plan_json, original_weeks, remaining_weeks)`.  The
`original_weeks` argument is accepted and ignored, as in the source.
Python's slice `xs[i*t:(i+1)*t]` is `(xs.drop (i*t)).take t`. -/
def recompress_plan (p : Plan) (original_weeks remaining_weeks : Int) : Plan :=
  let tasks := all_tasks p
  let resources := all_resources p
  let rem : Nat := (max 1 remaining_weeks).toNat
  let t_per_week : Nat := max 1 (tasks.length / rem)
  let new_weeks := (List.range rem).map fun i =>
    let slice_tasks := (tasks.drop (i * t_per_week)).take t_per_week
    ("Week " ++ toString (i + 1),
     ({ Tasks := if slice_tasks = [] then ["Catch-up session: review core concepts"]
                 else slice_tasks,
        Resources := if resources = [] then ["Docs"]
                     else (resources.drop (i * t_per_week)).take t_per_week,
        Reflection := "What will you prioritize next week?",
        Mentor_Tip := "Focus on the highest-impact tasks first." } : WeekEntry))
  { p with weeks := new_weeks }

/-- A flashcard, with the source's key names `q` and `a`. -/
structure Flashcard where
  q : String
  a : String
deriving Repr, DecidableEq

/-- Dict lookup `plan_json.get("weeks", {}).get(week_key, {})`, on the
insertion-ordered association list. -/
def lookup_week (p : Plan) (label : String) : Option WeekEntry :=
  (p.weeks.find? fun kv => kv.1 = label).map fun kv => kv.2

/-- `generate_flashcards(plan_json, current_week)`.  `t.split(':')[0][:60]`
is the text before the first colon, truncated to 60 characters. -/
def generate_flashcards (p : Plan) (current_week : Nat) : List Flashcard :=
  let week_key := "Week " ++ toString current_week
  let tasks := match lookup_week p week_key with
    | some e => e.Tasks
    | none => []
  (tasks.take 5).map fun t =>
    { q := "What is the key action for: " ++ ((t.splitOn ":").headD "").take 60 ++ "?",
      a := "Do: " ++ t }

/-- `emoji_tree(p)` from the progress panel. -/
def emoji_tree (p : Nat) : String :=
  if p < 10 then "🌱"
  else if p < 40 then "🌱🌿"
  else if p < 70 then "🌱🌿🌳"
  else "🌱🌿🌳🌲"

/-- Fuel-driven floor logarithm base 2 (0 for inputs 0 and 1); the fuel
argument only bounds the recursion and `natLog2` below always supplies
enough. -/
def log2fuel : Nat → Nat → Nat
  | 0, _ => 0
  | fuel + 1, n => if n ≤ 1 then 0 else log2fuel fuel (n / 2) + 1

/-- Floor of the base-2 logarithm, kernel-computable. -/
def natLog2 (n : Nat) : Nat := log2fuel n n

/-- A nonnegative binary64 value, represented exactly as the dyadic
rational `m / 2^s`. -/
structure Dyadic where
  m : Nat
  s : Nat
deriving Repr, DecidableEq

/-- IEEE-754 binary64 rounding of the exact ratio `a / b`: the result is
the 53-bit-significand dyadic nearest to `a / b`, ties to even.  `la - lb`
or `la - lb - 1` is the floor of `log2 (a/b)` (picked by cross
multiplication), `e` the exponent of one unit in the last place, `m0` the
truncated significand and `r` the remainder deciding the rounding
direction.  Overflow and subnormals (exponents beyond roughly ±2^10) are
not modelled, as in the header note. -/
def roundNearest64 (a b : Nat) : Dyadic :=
  if a = 0 ∨ b = 0 then ⟨0, 0⟩ else
  let la := natLog2 a
  let lb := natLog2 b
  let k : Int := if 2 ^ lb * a < 2 ^ la * b then (la : Int) - lb - 1 else (la : Int) - lb
  let e : Int := k - 52
  if 0 ≤ e then
    let d := b * 2 ^ e.toNat
    let m0 := a / d
    let r := a % d
    let m := if d < 2 * r ∨ (2 * r = d ∧ m0 % 2 = 1) then m0 + 1 else m0
    ⟨m * 2 ^ e.toNat, 0⟩
  else
    let s := (-e).toNat
    let a2 := a * 2 ^ s
    let m0 := a2 / b
    let r := a2 % b
    let m := if b < 2 * r ∨ (2 * r = b ∧ m0 % 2 = 1) then m0 + 1 else m0
    ⟨m, s⟩

/-- Conversion of a Python `int` to binary64 (exact below 2^53, rounded to
nearest even above). -/
def floatOfNat (n : Nat) : Dyadic := roundNearest64 n 1

/-- Binary64 division `x / y`: one correctly-rounded step on the exact
quotient `(x.m / 2^x.s) / (y.m / 2^y.s)`. -/
def floatDiv (x y : Dyadic) : Dyadic := roundNearest64 (x.m * 2 ^ y.s) (y.m * 2 ^ x.s)

/-- Binary64 multiplication `x * y`: one correctly-rounded step on the
exact product. -/
def floatMul (x y : Dyadic) : Dyadic := roundNearest64 (x.m * y.m) (2 ^ (x.s + y.s))

/-- Python `int()` on a nonnegative binary64 value: truncation toward
zero. -/
def floatTruncInt (x : Dyadic) : Nat := x.m / 2 ^ x.s

/-- The progress update `if total_tasks > 0: percent = int(completed_tasks/total_tasks*100)`
with the source's binary64 float arithmetic: divide, multiply by 100, each
correctly rounded, then truncate.  When `total_tasks = 0` the session
value `prev` is left unchanged (it is `0` after initialization or plan
generation). -/
def percent_update (completed_tasks total_tasks prev : Nat) : Nat :=
  if total_tasks > 0 then
    floatTruncInt (floatMul (floatDiv (floatOfNat completed_tasks) (floatOfNat total_tasks))
      (floatOfNat 100))
  else prev

/-- The XP shown by `st.metric("XP", st.session_state.percent*10)`. -/
def xp_of (percent : Nat) : Nat := percent * 10

/-- The credential test `if not api_key`: true when the lookup produced
nothing or an empty string (both falsy in Python). -/
def key_missing (apiKey : Option String) : Bool :=
  match apiKey with
  | none => true
  | some k => k = ""

/-- `text[start:end+1]` where `start = text.find('{')` and
`end = text.rfind('}')`; the text is unchanged when either is `-1`. -/
def extract_json_span (text : List Char) : List Char :=
  match text.indexOf? '{', text.reverse.indexOf? '}' with
  | some s, some re =>
      let e := text.length - 1 - re
      (text.drop s).take (e + 1 - s)
  | _, _ => text

/-- Result of one invocation of the plan generator: the plan, whether a
warning was surfaced (`st.warning`), and how many external-service calls
were made. -/
structure GenOutcome where
  plan : Plan
  warned : Bool
  attempts : Nat
deriving Repr, DecidableEq

/-- `call_openai_for_plan(goal, weeks, mentor_style)`.  The parts outside
this repository are parameters: `apiKey` is what `get_openai_api_key`
found, `service` the outcome of the single `openai.ChatCompletion.create`
call (`Except.error` models a raised exception), and `json_loads` the
Python JSON parser applied to the extracted span.  The source strips the
response, slices between the first brace and the last closing brace, and
falls back (with `st.warning`) when the call raises or the parse fails;
with a falsy key it returns the fallback immediately, without warning. -/
def call_openai_for_plan (goal : String) (weeks : Int) (mentor_style : String)
    (pick : Nat → Fin 3) (apiKey : Option String)
    (service : Except String String) (json_loads : List Char → Option Plan) :
    GenOutcome :=
  if key_missing apiKey then
    { plan := fallback_plan goal weeks mentor_style pick, warned := false, attempts := 0 }
  else
    match service with
    | .error _ =>
        { plan := fallback_plan goal weeks mentor_style pick, warned := true, attempts := 1 }
    | .ok text =>
        match json_loads (extract_json_span text.trim.data) with
        | some p => { plan := p, warned := false, attempts := 1 }
        | none =>
            { plan := fallback_plan goal weeks mentor_style pick, warned := true,
              attempts := 1 }

/-- JSON document values, restricted to the constructors a plan document
uses: strings, arrays, and insertion-ordered objects. -/
inductive Json where
  | str : String → Json
  | arr : List Json → Json
  | obj : List (String × Json) → Json

/-- Modelled from the spec: the document shape that
`json.dumps(plan, indent=2)` writes for one week entry (the Python `json`
module itself is outside this repository); exact per-week key names
`Tasks`, `Resources`, `Reflection`, `Mentor_Tip`. -/
def weekEntryToJson (e : WeekEntry) : Json :=
  Json.obj [("Tasks", Json.arr (e.Tasks.map Json.str)),
            ("Resources", Json.arr (e.Resources.map Json.str)),
            ("Reflection", Json.str e.Reflection),
            ("Mentor_Tip", Json.str e.Mentor_Tip)]

/-- Modelled from the spec: the document that `json.dumps(plan, indent=2)`
writes for the whole plan; exact key names `milestones`, `weeks`,
`mentor_notes`. -/
def planToJson (p : Plan) : Json :=
  Json.obj [("milestones", Json.arr (p.milestones.map Json.str)),
            ("weeks", Json.obj (p.weeks.map fun kv => (kv.1, weekEntryToJson kv.2))),
            ("mentor_notes", Json.str p.mentor_notes)]

/-- Key lookup in a parsed JSON object (first match, as a Python dict
built by `json.loads` would give). -/
def jsonLookup (j : Json) (k : String) : Option Json :=
  match j with
  | Json.obj kvs => (kvs.find? fun kv => kv.1 = k).map fun kv => kv.2
  | _ => none

/-- Reads a parsed JSON string. -/
def jsonAsString : Json → Option String
  | Json.str s => some s
  | _ => none

/-- Reads a parsed JSON array of strings. -/
def strList : List Json → Option (List String)
  | [] => some []
  | Json.str s :: rest => (strList rest).map fun l => s :: l
  | _ => none

/-- Reads a parsed JSON value as an array of strings. -/
def jsonAsStringList : Json → Option (List String)
  | Json.arr xs => strList xs
  | _ => none

/-- Reads a parsed JSON value as an object's key-value list. -/
def jsonAsObj : Json → Option (List (String × Json))
  | Json.obj kvs => some kvs
  | _ => none

/-- Modelled from the spec: reading one week entry back out of the parsed
document, by the per-week key names. -/
def jsonToWeekEntry (j : Json) : Option WeekEntry :=
  (jsonLookup j "Tasks").bind fun t =>
  (jsonLookup j "Resources").bind fun r =>
  (jsonLookup j "Reflection").bind fun refl =>
  (jsonLookup j "Mentor_Tip").bind fun tip =>
  (jsonAsStringList t).bind fun ts =>
  (jsonAsStringList r).bind fun rs =>
  (jsonAsString refl).bind fun refls =>
  (jsonAsString tip).map fun tips =>
  { Tasks := ts, Resources := rs, Reflection := refls, Mentor_Tip := tips }

/-- Reads the ordered week mapping back, entry by entry. -/
def readWeeks : List (String × Json) → Option (List (String × WeekEntry))
  | [] => some []
  | (k, j) :: rest =>
    (jsonToWeekEntry j).bind fun e =>
    (readWeeks rest).map fun ws => (k, e) :: ws

/-- Modelled from the spec: parsing the serialized plan document back into
a plan, by the top-level key names. -/
def jsonToPlan (j : Json) : Option Plan :=
  (jsonLookup j "milestones").bind fun ms =>
  (jsonLookup j "weeks").bind fun wk =>
  (jsonLookup j "mentor_notes").bind fun notes =>
  (jsonAsStringList ms).bind fun msl =>
  (jsonAsString notes).bind fun notesStr =>
  (jsonAsObj wk).bind fun kvs =>
  (readWeeks kvs).map fun ws =>
  { milestones := msl, weeks := ws, mentor_notes := notesStr }

/-- The spec sentence's formula for the percentage, written with rounding
as the claim states it (`round(100 * checked_count / total_task_count)`,
0 when the total is 0); kept separate so it can be compared with the
source's `percent_update`. -/
def percent_round_claimed (completed total : Nat) : Int :=
  if 0 < total then round ((100 * completed : ℚ) / total) else 0

end Agentic

namespace Agentic

set_option maxRecDepth 40000

/-- Claim C1 fails as stated: with 2 of 3 tasks checked the source computes
`int(2/3*100) = 66` (the binary64 product is 66.66666666666666), while the
claimed `round(100*2/3)` is 67. -/
theorem C1_counterexample :
    percent_update 2 3 0 = 66 ∧ percent_round_claimed 2 3 = 67
    ∧ (percent_update 2 3 0 : Int) ≠ percent_round_claimed 2 3 := by
  have h67 : percent_round_claimed 2 3 = 67 := by
    rw [percent_round_claimed, if_pos (by norm_num), round_eq]
    push_cast
    rw [Int.floor_eq_iff]
    constructor <;> norm_num
  refine ⟨by decide, h67, ?_⟩
  rw [h67]
  decide

/-- Claim C1 (amended): when `total > 0` the derived percentage is the
toward-zero truncation of the binary64 float evaluation of
`completed/total*100` (not rounding, and not exact floor division either:
29 of 50 gives 57 where the exact floor is 58, while 3 of 4 still gives
the spec's 75); it is 0 when the total is 0 and the stored session value
is its reset value 0; and the displayed XP is always the percentage times
10. -/
theorem C1_percent_xp (completed total prev : Nat) (h : 0 < total) :
    percent_update completed total prev
      = floatTruncInt (floatMul (floatDiv (floatOfNat completed) (floatOfNat total))
          (floatOfNat 100))
    ∧ percent_update completed 0 0 = 0
    ∧ xp_of (percent_update completed total prev)
        = percent_update completed total prev * 10
    ∧ percent_update 3 4 0 = 75
    ∧ percent_update 29 50 0 = 57
    ∧ 100 * 29 / 50 = 58
    ∧ percent_update 29 100 0 = 28 := by
  refine ⟨?_, rfl, rfl, by decide, by decide, by decide, by decide⟩
  unfold percent_update
  rw [if_pos h]

/-- Witness for C1 at the spec's own example: 3 of 4 tasks checked gives
percent 75 and XP 750. -/
theorem C1_percent_xp_witness :
    0 < 4
    ∧ (percent_update 3 4 0
         = floatTruncInt (floatMul (floatDiv (floatOfNat 3) (floatOfNat 4))
             (floatOfNat 100))
       ∧ percent_update 3 0 0 = 0
       ∧ xp_of (percent_update 3 4 0) = percent_update 3 4 0 * 10
       ∧ percent_update 3 4 0 = 75
       ∧ percent_update 29 50 0 = 57
       ∧ 100 * 29 / 50 = 58
       ∧ percent_update 29 100 0 = 28) :=
  ⟨by decide, C1_percent_xp 3 4 0 (by decide)⟩

/-- Claim C7: the emoji tier label has boundaries at 10, 40 and 70, with
the spec's sample points. -/
theorem C7_emoji_tiers (p : Nat) :
    (p < 10 → emoji_tree p = "🌱")
    ∧ (10 ≤ p → p < 40 → emoji_tree p = "🌱🌿")
    ∧ (40 ≤ p → p < 70 → emoji_tree p = "🌱🌿🌳")
    ∧ (70 ≤ p → emoji_tree p = "🌱🌿🌳🌲")
    ∧ emoji_tree 9 = "🌱" ∧ emoji_tree 10 = "🌱🌿" ∧ emoji_tree 39 = "🌱🌿"
    ∧ emoji_tree 40 = "🌱🌿🌳" ∧ emoji_tree 69 = "🌱🌿🌳"
    ∧ emoji_tree 70 = "🌱🌿🌳🌲" := by
  unfold emoji_tree
  refine ⟨fun h => by simp [h], fun h1 h2 => ?_, fun h1 h2 => ?_, fun h1 => ?_,
    rfl, rfl, rfl, rfl, rfl, rfl⟩
  · rw [if_neg (by omega), if_pos h2]
  · rw [if_neg (by omega), if_neg (by omega), if_pos h2]
  · rw [if_neg (by omega), if_neg (by omega), if_neg (by omega)]

/-- Witness for C7 at percent 9. -/
theorem C7_emoji_tiers_witness : emoji_tree 9 = "🌱" :=
  (C7_emoji_tiers 9).1 (by decide)

/-- Claim C9: recompression replaces only the weeks mapping; milestones and
mentor notes are exactly those of the input plan. -/
theorem C9_recompress_frame (p : Plan) (ow rw : Int) :
    (recompress_plan p ow rw).milestones = p.milestones
    ∧ (recompress_plan p ow rw).mentor_notes = p.mentor_notes :=
  ⟨rfl, rfl⟩

lemma getD_map_range {α : Type _} (f : Nat → α) (n i : Nat) (hi : i < n) (d : α) :
    ((List.range n).map f).getD i d = f i := by
  simp [List.getD_eq_getElem?_getD, List.getElem?_range, hi]

lemma fallback_plan_weeks (goal mentor_style : String) (weeks : Int) (pick : Nat → Fin 3) :
    (fallback_plan goal weeks mentor_style pick).weeks
      = (List.range (max 1 weeks).toNat).map fun i =>
          ("Week " ++ toString (i + 1), fallback_week mentor_style (i + 1) (pick (i + 1))) := by
  simp [fallback_plan]

lemma fallback_plan_milestones (goal mentor_style : String) (weeks : Int)
    (pick : Nat → Fin 3) :
    (fallback_plan goal weeks mentor_style pick).milestones
      = ((List.range (min 4 (max 1 weeks).toNat)).map fun i =>
          milestones_templates.getD i "" ++ " - Week " ++ toString (i + 1))
        ++ (if (max 1 weeks).toNat > 4 then ["Polish & Review"] else []) := by
  simp [fallback_plan]

/-- Claim C10: with a non-positive week count the fallback coerces to one
week via `int(max(1, weeks))` and yields a well-formed plan with exactly
the single label "Week 1" and exactly one milestone. -/
theorem C10_fallback_nonpositive_weeks (goal mentor_style : String) (pick : Nat → Fin 3)
    (weeks : Int) (h : weeks ≤ 0) :
    (max 1 weeks).toNat = 1
    ∧ (fallback_plan goal weeks mentor_style pick).weeks.map Prod.fst = ["Week 1"]
    ∧ (fallback_plan goal weeks mentor_style pick).milestones = ["Foundation - Week 1"] := by
  have hm : (max 1 weeks).toNat = 1 := by
    rw [max_eq_left (by omega : weeks ≤ 1)]
    rfl
  refine ⟨hm, ?_, ?_⟩
  · rw [fallback_plan_weeks, hm]
    rfl
  · rw [fallback_plan_milestones, hm]
    rfl

/-- Claim C5: for weeks ≥ 1 the fallback plan has exactly
`min(weeks,4) + (1 if weeks>4 else 0)` milestones, milestone i (for
`i < min(4,weeks)`) is the template label suffixed with " - Week {i+1}",
"Polish & Review" is the appended last milestone when weeks > 4, and there
are exactly `weeks` week entries labeled "Week 1" through "Week {weeks}". -/
theorem C5_fallback_shape (goal mentor_style : String) (weeks : Int) (pick : Nat → Fin 3)
    (h : 1 ≤ weeks) :
    (fallback_plan goal weeks mentor_style pick).milestones.length
        = min weeks.toNat 4 + (if 4 < weeks.toNat then 1 else 0)
    ∧ (∀ i, i < min 4 weeks.toNat →
        (fallback_plan goal weeks mentor_style pick).milestones.getD i ""
          = milestones_templates.getD i "" ++ " - Week " ++ toString (i + 1))
    ∧ (4 < weeks.toNat →
        (fallback_plan goal weeks mentor_style pick).milestones.getD
            ((fallback_plan goal weeks mentor_style pick).milestones.length - 1) ""
          = "Polish & Review")
    ∧ (fallback_plan goal weeks mentor_style pick).weeks.length = weeks.toNat
    ∧ (∀ i, i < weeks.toNat →
        ((fallback_plan goal weeks mentor_style pick).weeks.getD i default).1
          = "Week " ++ toString (i + 1)) := by
  have hm : (max 1 weeks).toNat = weeks.toNat := by
    rw [max_eq_right h]
  rw [fallback_plan_milestones, fallback_plan_weeks, hm]
  set w := weeks.toNat with hw
  have hlen : (((List.range (min 4 w)).map fun i =>
      milestones_templates.getD i "" ++ " - Week " ++ toString (i + 1))
        ++ (if w > 4 then ["Polish & Review"] else [])).length
      = min w 4 + (if 4 < w then 1 else 0) := by
    rw [List.length_append, List.length_map, List.length_range, min_comm]
    by_cases h4 : 4 < w
    · rw [if_pos h4, if_pos h4]
      rfl
    · rw [if_neg h4, if_neg h4]
      rfl
  refine ⟨hlen, fun i hi => ?_, fun h4 => ?_, ?_, fun i hi => ?_⟩
  · rw [List.getD_append _ _ _ _ (by simpa using hi), getD_map_range _ _ _ hi]
  · have hmin : min 4 w = 4 := by omega
    rw [hlen]
    have : min w 4 + (if 4 < w then 1 else 0) - 1 = 4 := by
      rw [if_pos h4]
      omega
    rw [this, List.getD_append_right _ _ _ _ (by simp [hmin]), if_pos (by omega : w > 4)]
    simp [hmin]
  · rw [List.length_map, List.length_range]
  · rw [getD_map_range _ _ _ hi]

/-- Witness for C5 at weeks = 5 (all four templates plus the appended
"Polish & Review", and labels "Week 1".."Week 5"). -/
theorem C5_fallback_shape_witness :
    (1 : Int) ≤ 5
    ∧ ((fallback_plan "g" 5 "m" (fun _ => 0)).milestones.length
          = min (5 : Int).toNat 4 + (if 4 < (5 : Int).toNat then 1 else 0)
       ∧ (∀ i, i < min 4 (5 : Int).toNat →
           (fallback_plan "g" 5 "m" (fun _ => 0)).milestones.getD i ""
             = milestones_templates.getD i "" ++ " - Week " ++ toString (i + 1))
       ∧ (4 < (5 : Int).toNat →
           (fallback_plan "g" 5 "m" (fun _ => 0)).milestones.getD
               ((fallback_plan "g" 5 "m" (fun _ => 0)).milestones.length - 1) ""
             = "Polish & Review")
       ∧ (fallback_plan "g" 5 "m" (fun _ => 0)).weeks.length = (5 : Int).toNat
       ∧ (∀ i, i < (5 : Int).toNat →
           ((fallback_plan "g" 5 "m" (fun _ => 0)).weeks.getD i default).1
             = "Week " ++ toString (i + 1))) :=
  ⟨by decide, C5_fallback_shape "g" "m" 5 (fun _ => 0) (by decide)⟩

lemma getD_map {α β : Type _} (f : α → β) (l : List α) (i : Nat) (hi : i < l.length)
    (d : β) (d' : α) : (l.map f).getD i d = f (l.getD i d') := by
  rw [List.getD_eq_getElem?_getD, List.getElem?_map, List.getElem?_eq_getElem hi,
    List.getD_eq_getElem?_getD, List.getElem?_eq_getElem hi]
  rfl

lemma getD_take {α : Type _} (l : List α) (n i : Nat) (hi : i < n) (d : α) :
    (l.take n).getD i d = l.getD i d := by
  rw [List.getD_eq_getElem?_getD, List.getElem?_take, if_pos hi, List.getD_eq_getElem?_getD]

/-- Claim C6: the flashcard extractor yields exactly `min 5 (task count)`
cards for the looked-up week, each card i built from task i in order, and
an absent week label yields the empty sequence. -/
theorem C6_flashcards (p : Plan) (w : Nat) :
    (∀ e, lookup_week p ("Week " ++ toString w) = some e →
        (generate_flashcards p w).length = min 5 e.Tasks.length
        ∧ ∀ i, i < min 5 e.Tasks.length →
            (generate_flashcards p w).getD i ⟨"", ""⟩
              = { q := "What is the key action for: "
                    ++ (((e.Tasks.getD i "").splitOn ":").headD "").take 60 ++ "?",
                  a := "Do: " ++ e.Tasks.getD i "" })
    ∧ (lookup_week p ("Week " ++ toString w) = none → generate_flashcards p w = []) := by
  constructor
  · intro e he
    unfold generate_flashcards
    simp only [he]
    constructor
    · rw [List.length_map, List.length_take]
    · intro i hi
      have hlen : i < (e.Tasks.take 5).length := by
        rw [List.length_take]
        exact hi
      rw [getD_map _ _ _ hlen _ "", getD_take _ _ _ (by omega)]
  · intro hn
    unfold generate_flashcards
    simp only [hn]
    rfl

/-- Witness for C6 on a one-week plan with 7 tasks: the looked-up entry
exists and exactly 5 cards come back. -/
theorem C6_flashcards_witness :
    lookup_week
        ({ milestones := [],
           weeks := [("Week 1",
             { Tasks := ["a", "b", "c", "d", "e", "f", "g"], Resources := [],
               Reflection := "", Mentor_Tip := "" })],
           mentor_notes := "" } : Plan) ("Week " ++ toString 1)
      = some { Tasks := ["a", "b", "c", "d", "e", "f", "g"], Resources := [],
               Reflection := "", Mentor_Tip := "" }
    ∧ (generate_flashcards
        ({ milestones := [],
           weeks := [("Week 1",
             { Tasks := ["a", "b", "c", "d", "e", "f", "g"], Resources := [],
               Reflection := "", Mentor_Tip := "" })],
           mentor_notes := "" } : Plan) 1).length
      = min 5 (["a", "b", "c", "d", "e", "f", "g"] : List String).length :=
  ⟨by decide,
   ((C6_flashcards _ 1).1
     { Tasks := ["a", "b", "c", "d", "e", "f", "g"], Resources := [],
       Reflection := "", Mentor_Tip := "" } (by decide)).1⟩

lemma strList_inv (l : List String) : strList (l.map Json.str) = some l := by
  induction l with
  | nil => rfl
  | cons x xs ih =>
      rw [List.map_cons, strList, ih]
      rfl

lemma jsonToWeekEntry_inv (e : WeekEntry) : jsonToWeekEntry (weekEntryToJson e) = some e := by
  have h1 : jsonLookup (weekEntryToJson e) "Tasks"
      = some (Json.arr (e.Tasks.map Json.str)) := rfl
  have h2 : jsonLookup (weekEntryToJson e) "Resources"
      = some (Json.arr (e.Resources.map Json.str)) := rfl
  have h3 : jsonLookup (weekEntryToJson e) "Reflection"
      = some (Json.str e.Reflection) := rfl
  have h4 : jsonLookup (weekEntryToJson e) "Mentor_Tip"
      = some (Json.str e.Mentor_Tip) := rfl
  rw [jsonToWeekEntry, h1, h2, h3, h4]
  simp only [Option.some_bind, jsonAsStringList, strList_inv, jsonAsString,
    Option.map_some']

lemma readWeeks_inv (ws : List (String × WeekEntry)) :
    readWeeks (ws.map fun kv => (kv.1, weekEntryToJson kv.2)) = some ws := by
  induction ws with
  | nil => rfl
  | cons x xs ih =>
      rw [List.map_cons, readWeeks, jsonToWeekEntry_inv, ih]
      rfl

/-- Claim C8: serializing a plan to the JSON document and parsing it back
yields the same plan: identical milestones, identical week labels in the
same order, and identical per-week task lists (with the whole week entries
and mentor notes also preserved). -/
theorem C8_json_roundtrip (p : Plan) :
    jsonToPlan (planToJson p) = some p
    ∧ (jsonToPlan (planToJson p)).map Plan.milestones = some p.milestones
    ∧ (jsonToPlan (planToJson p)).map (fun q => q.weeks.map Prod.fst)
      = some (p.weeks.map Prod.fst)
    ∧ (jsonToPlan (planToJson p)).map (fun q => q.weeks.map fun kv => kv.2.Tasks)
      = some (p.weeks.map fun kv => kv.2.Tasks) := by
  have h1 : jsonLookup (planToJson p) "milestones"
      = some (Json.arr (p.milestones.map Json.str)) := rfl
  have h2 : jsonLookup (planToJson p) "weeks"
      = some (Json.obj (p.weeks.map fun kv => (kv.1, weekEntryToJson kv.2))) := rfl
  have h3 : jsonLookup (planToJson p) "mentor_notes"
      = some (Json.str p.mentor_notes) := rfl
  have hmain : jsonToPlan (planToJson p) = some p := by
    rw [jsonToPlan, h1, h2, h3]
    simp only [Option.some_bind, jsonAsStringList, strList_inv, jsonAsString,
      jsonAsObj, readWeeks_inv, Option.map_some']
  exact ⟨hmain, by rw [hmain]; rfl, by rw [hmain]; rfl, by rw [hmain]; rfl⟩

lemma recompress_plan_weeks (p : Plan) (ow rw : Int) :
    (recompress_plan p ow rw).weeks
      = (List.range (max 1 rw).toNat).map fun i =>
          ("Week " ++ toString (i + 1),
           { Tasks :=
               if ((all_tasks p).drop
                     (i * max 1 ((all_tasks p).length / (max 1 rw).toNat))).take
                   (max 1 ((all_tasks p).length / (max 1 rw).toNat)) = []
               then ["Catch-up session: review core concepts"]
               else ((all_tasks p).drop
                     (i * max 1 ((all_tasks p).length / (max 1 rw).toNat))).take
                   (max 1 ((all_tasks p).length / (max 1 rw).toNat)),
             Resources :=
               if all_resources p = [] then ["Docs"]
               else ((all_resources p).drop
                     (i * max 1 ((all_tasks p).length / (max 1 rw).toNat))).take
                   (max 1 ((all_tasks p).length / (max 1 rw).toNat)),
             Reflection := "What will you prioritize next week?",
             Mentor_Tip := "Focus on the highest-impact tasks first." }) := rfl

lemma sum_map_range_eq_mul (f : Nat → Nat) :
    ∀ n c, (∀ i, i < n → f i = c) → ((List.range n).map f).sum = n * c := by
  intro n
  induction n with
  | zero => intro c _; simp
  | succ m ih =>
      intro c hf
      rw [List.range_succ, List.map_append, List.sum_append,
        ih c (fun i hi => hf i (by omega))]
      simp [hf m (by omega)]
      ring

/-- A single-week plan with 10 flattened tasks, matching the spec's
concrete recompression example. -/
def ten_task_plan : Plan :=
  { milestones := [],
    weeks :=
      [("Week 1",
        { Tasks := ["t1", "t2", "t3", "t4", "t5", "t6", "t7", "t8", "t9", "t10"],
          Resources := [], Reflection := "", Mentor_Tip := "" })],
    mentor_notes := "" }

/-- Claim C2 fails as stated: recompressing 10 flattened tasks into 4 weeks
gives per_week = 2 and keeps 8 tasks, so 2 are dropped, yet the claimed
dropped count `total_tasks mod per_week = 10 mod 2` is 0. -/
theorem C2_counterexample :
    (all_tasks ten_task_plan).length = 10
    ∧ ((recompress_plan ten_task_plan 1 4).weeks.map fun kv => kv.2.Tasks.length).sum = 8
    ∧ (all_tasks ten_task_plan).length
        % (max 1 ((all_tasks ten_task_plan).length / (max 1 (4 : Int)).toNat)) = 0
    ∧ (all_tasks ten_task_plan).length
        - ((recompress_plan ten_task_plan 1 4).weeks.map fun kv => kv.2.Tasks.length).sum
      ≠ (all_tasks ten_task_plan).length
        % (max 1 ((all_tasks ten_task_plan).length / (max 1 (4 : Int)).toNat)) := by
  refine ⟨rfl, rfl, rfl, by decide⟩

/-- Claim C2 (amended): with `rem = max(1, remaining_weeks)` and
`per_week = max(1, total / rem)`, recompression builds exactly `rem` weeks;
when `rem ≤ total` the per-week formula collapses to `total / rem`, every
rebuilt week's task list is the consecutive chunk of size `per_week`
starting at `i * per_week`, the kept tasks sum to `total - total % rem`,
and hence the dropped count is `total % rem` (not `total % per_week`).
The spec's concrete example (10 tasks into 3 weeks: chunks of 3, one task
dropped) is an instance. -/
theorem C2_recompress_chunks (p : Plan) (ow rw : Int)
    (h : (max 1 rw).toNat ≤ (all_tasks p).length) :
    (recompress_plan p ow rw).weeks.length = (max 1 rw).toNat
    ∧ max 1 ((all_tasks p).length / (max 1 rw).toNat)
        = (all_tasks p).length / (max 1 rw).toNat
    ∧ (∀ i, i < (max 1 rw).toNat →
        ((recompress_plan p ow rw).weeks.getD i default).2.Tasks
          = ((all_tasks p).drop
              (i * ((all_tasks p).length / (max 1 rw).toNat))).take
            ((all_tasks p).length / (max 1 rw).toNat))
    ∧ ((recompress_plan p ow rw).weeks.map fun kv => kv.2.Tasks.length).sum
        = (all_tasks p).length - (all_tasks p).length % (max 1 rw).toNat := by
  set rem := (max 1 rw).toNat with hremdef
  set total := (all_tasks p).length with htotal
  have hrem_pos : 0 < rem := by
    rw [hremdef]
    omega
  have hper1 : 1 ≤ total / rem := (Nat.one_le_div_iff hrem_pos).mpr h
  have hmax : max 1 (total / rem) = total / rem := max_eq_right hper1
  set per := total / rem with hper
  have hfull : rem * per ≤ total := by
    rw [hper, Nat.mul_comm]
    exact Nat.div_mul_le_self total rem
  have hchunk_len : ∀ i, i < rem →
      (((all_tasks p).drop (i * per)).take per).length = per := by
    intro i hi
    rw [List.length_take, List.length_drop, ← htotal]
    have h1 : (i + 1) * per = i * per + per := by ring
    have h2 : (i + 1) * per ≤ rem * per := Nat.mul_le_mul_right per hi
    omega
  have hchunk_ne : ∀ i, i < rem →
      ((all_tasks p).drop (i * per)).take per ≠ [] := by
    intro i hi hnil
    have := hchunk_len i hi
    rw [hnil] at this
    simp at this
    omega
  have htasks : ∀ i, i < rem →
      ((recompress_plan p ow rw).weeks.getD i default).2.Tasks
        = ((all_tasks p).drop (i * per)).take per := by
    intro i hi
    rw [recompress_plan_weeks, getD_map_range _ _ _ hi]
    simp only [← hremdef, ← htotal, hmax, ← hper]
    rw [if_neg (hchunk_ne i hi)]
  refine ⟨?_, hmax, htasks, ?_⟩
  · rw [recompress_plan_weeks, List.length_map, List.length_range]
  · rw [recompress_plan_weeks, List.map_map]
    have hsum : ((List.range rem).map
        ((fun kv => kv.2.Tasks.length) ∘ (fun i =>
          ("Week " ++ toString (i + 1),
           ({ Tasks :=
                if ((all_tasks p).drop
                      (i * max 1 ((all_tasks p).length / (max 1 rw).toNat))).take
                    (max 1 ((all_tasks p).length / (max 1 rw).toNat)) = []
                then ["Catch-up session: review core concepts"]
                else ((all_tasks p).drop
                      (i * max 1 ((all_tasks p).length / (max 1 rw).toNat))).take
                    (max 1 ((all_tasks p).length / (max 1 rw).toNat)),
              Resources :=
                if all_resources p = [] then ["Docs"]
                else ((all_resources p).drop
                      (i * max 1 ((all_tasks p).length / (max 1 rw).toNat))).take
                    (max 1 ((all_tasks p).length / (max 1 rw).toNat)),
              Reflection := "What will you prioritize next week?",
              Mentor_Tip := "Focus on the highest-impact tasks first." } : WeekEntry))))).sum
        = rem * per := by
      apply sum_map_range_eq_mul
      intro i hi
      simp only [Function.comp_apply, ← hremdef, ← htotal, hmax, ← hper]
      rw [if_neg (hchunk_ne i hi)]
      exact hchunk_len i hi
    rw [hsum]
    have := Nat.div_add_mod total rem
    rw [hper]
    omega

/-- Witness for C2 at the spec's example: 10 flattened tasks into 3 weeks
(the hypothesis 3 ≤ 10 holds; chunks have size 3 and 9 tasks are kept,
so exactly 1 = 10 mod 3 task is dropped). -/
theorem C2_recompress_chunks_witness :
    (max 1 (3 : Int)).toNat ≤ (all_tasks ten_task_plan).length
    ∧ ((recompress_plan ten_task_plan 1 3).weeks.length = (max 1 (3 : Int)).toNat
       ∧ max 1 ((all_tasks ten_task_plan).length / (max 1 (3 : Int)).toNat)
           = (all_tasks ten_task_plan).length / (max 1 (3 : Int)).toNat
       ∧ (∀ i, i < (max 1 (3 : Int)).toNat →
           ((recompress_plan ten_task_plan 1 3).weeks.getD i default).2.Tasks
             = ((all_tasks ten_task_plan).drop
                 (i * ((all_tasks ten_task_plan).length / (max 1 (3 : Int)).toNat))).take
               ((all_tasks ten_task_plan).length / (max 1 (3 : Int)).toNat))
       ∧ ((recompress_plan ten_task_plan 1 3).weeks.map fun kv => kv.2.Tasks.length).sum
           = (all_tasks ten_task_plan).length
             - (all_tasks ten_task_plan).length % (max 1 (3 : Int)).toNat) :=
  ⟨by decide, C2_recompress_chunks ten_task_plan 1 3 (by decide)⟩

/-- A plan whose flattened resource list (2 entries) is shorter than its
flattened task list (4 entries), so the second chunk's resource slice runs
out. -/
def resource_gap_plan : Plan :=
  { milestones := ["m1"],
    weeks :=
      [("Week 1",
        { Tasks := ["t1", "t2"], Resources := ["r1", "r2"],
          Reflection := "", Mentor_Tip := "" }),
       ("Week 2",
        { Tasks := ["t3", "t4"], Resources := [],
          Reflection := "", Mentor_Tip := "" })],
    mentor_notes := "n" }

/-- Claim C3 fails as stated: recompressing `resource_gap_plan` into 2
weeks gives the second week a nonempty task chunk but an exhausted,
empty resource slice, and its resources stay `[]` instead of defaulting
to the single placeholder. -/
theorem C3_counterexample :
    ((recompress_plan resource_gap_plan 2 2).weeks.getD 1 default).2.Tasks = ["t3", "t4"]
    ∧ ((recompress_plan resource_gap_plan 2 2).weeks.getD 1 default).2.Resources = []
    ∧ ((recompress_plan resource_gap_plan 2 2).weeks.getD 1 default).2.Resources
      ≠ ["Docs"] := by
  refine ⟨rfl, rfl, by decide⟩

/-- Claim C3 (amended): each rebuilt week's resources use exactly the task
chunk boundaries over the flattened resource list, but the single
placeholder is used precisely when the whole flattened resource list is
empty (then every week gets it); a nonempty list whose slice runs out
leaves that week's resources empty, with no placeholder. -/
theorem C3_resources_lockstep (p : Plan) (ow rw : Int) (i : Nat)
    (hi : i < (max 1 rw).toNat) :
    ((recompress_plan p ow rw).weeks.getD i default).2.Resources
      = (if all_resources p = [] then ["Docs"]
         else ((all_resources p).drop
               (i * max 1 ((all_tasks p).length / (max 1 rw).toNat))).take
             (max 1 ((all_tasks p).length / (max 1 rw).toNat))) := by
  rw [recompress_plan_weeks, getD_map_range _ _ _ hi]

/-- Witness for C3 on `resource_gap_plan`, second rebuilt week. -/
theorem C3_resources_lockstep_witness :
    1 < (max 1 (2 : Int)).toNat
    ∧ ((recompress_plan resource_gap_plan 2 2).weeks.getD 1 default).2.Resources
      = (if all_resources resource_gap_plan = [] then ["Docs"]
         else ((all_resources resource_gap_plan).drop
               (1 * max 1 ((all_tasks resource_gap_plan).length /
                   (max 1 (2 : Int)).toNat))).take
             (max 1 ((all_tasks resource_gap_plan).length / (max 1 (2 : Int)).toNat))) :=
  ⟨by decide, C3_resources_lockstep resource_gap_plan 2 2 1 (by decide)⟩

/-- Claim C4 fails as stated: with no API credential configured the source
returns the fallback immediately, making zero external attempts (the claim
says exactly one) and surfacing no warning (the claim says a warning is
surfaced in this case too). -/
theorem C4_counterexample :
    (call_openai_for_plan "g" 4 "m" (fun _ => 0) none (Except.ok "x")
        (fun _ => none)).attempts = 0
    ∧ (call_openai_for_plan "g" 4 "m" (fun _ => 0) none (Except.ok "x")
        (fun _ => none)).warned = false
    ∧ (call_openai_for_plan "g" 4 "m" (fun _ => 0) none (Except.ok "x")
        (fun _ => none)).plan = fallback_plan "g" 4 "m" (fun _ => 0)
    ∧ (call_openai_for_plan "g" 4 "m" (fun _ => 0) none (Except.ok "x")
        (fun _ => none)).attempts ≠ 1 :=
  ⟨rfl, rfl, rfl, by decide⟩

lemma call_openai_key_missing (goal : String) (weeks : Int) (mentor_style : String)
    (pick : Nat → Fin 3) (apiKey : Option String) (service : Except String String)
    (json_loads : List Char → Option Plan) (hk : key_missing apiKey = true) :
    call_openai_for_plan goal weeks mentor_style pick apiKey service json_loads
      = ⟨fallback_plan goal weeks mentor_style pick, false, 0⟩ := by
  unfold call_openai_for_plan
  simp [hk]

lemma call_openai_error (goal : String) (weeks : Int) (mentor_style : String)
    (pick : Nat → Fin 3) (apiKey : Option String)
    (json_loads : List Char → Option Plan) (hk : key_missing apiKey = false)
    (e : String) :
    call_openai_for_plan goal weeks mentor_style pick apiKey (Except.error e) json_loads
      = ⟨fallback_plan goal weeks mentor_style pick, true, 1⟩ := by
  unfold call_openai_for_plan
  simp [hk]

lemma call_openai_ok (goal : String) (weeks : Int) (mentor_style : String)
    (pick : Nat → Fin 3) (apiKey : Option String)
    (json_loads : List Char → Option Plan) (hk : key_missing apiKey = false)
    (text : String) :
    call_openai_for_plan goal weeks mentor_style pick apiKey (Except.ok text) json_loads
      = (match json_loads (extract_json_span text.trim.data) with
         | some p => ⟨p, false, 1⟩
         | none => ⟨fallback_plan goal weeks mentor_style pick, true, 1⟩) := by
  unfold call_openai_for_plan
  simp [hk]

/-- Claim C4 (amended): at most one external attempt per invocation, and
exactly one when a credential is configured (never retried); the
deterministic fallback is returned when the credential is missing, when
the call raises, and when the extracted text fails to parse as JSON; the
non-fatal warning is surfaced in the raise and parse-failure cases but not
in the missing-credential case. -/
theorem C4_generator_fallback (goal : String) (weeks : Int) (mentor_style : String)
    (pick : Nat → Fin 3) (apiKey : Option String) (service : Except String String)
    (json_loads : List Char → Option Plan) :
    (call_openai_for_plan goal weeks mentor_style pick apiKey service json_loads).attempts
      = (if key_missing apiKey then 0 else 1)
    ∧ (call_openai_for_plan goal weeks mentor_style pick apiKey service
        json_loads).attempts ≤ 1
    ∧ (key_missing apiKey = true →
        call_openai_for_plan goal weeks mentor_style pick apiKey service json_loads
          = ⟨fallback_plan goal weeks mentor_style pick, false, 0⟩)
    ∧ (key_missing apiKey = false → ∀ e, service = Except.error e →
        call_openai_for_plan goal weeks mentor_style pick apiKey service json_loads
          = ⟨fallback_plan goal weeks mentor_style pick, true, 1⟩)
    ∧ (key_missing apiKey = false → ∀ text, service = Except.ok text →
        json_loads (extract_json_span text.trim.data) = none →
        call_openai_for_plan goal weeks mentor_style pick apiKey service json_loads
          = ⟨fallback_plan goal weeks mentor_style pick, true, 1⟩) := by
  by_cases hk : key_missing apiKey
  · have hcall := call_openai_key_missing goal weeks mentor_style pick apiKey service
      json_loads hk
    refine ⟨?_, ?_, fun _ => hcall, fun hfalse => ?_, fun hfalse => ?_⟩
    · rw [hcall, if_pos hk]
    · rw [hcall]
      exact Nat.zero_le 1
    · rw [hk] at hfalse
      exact absurd hfalse (by simp)
    · rw [hk] at hfalse
      exact absurd hfalse (by simp)
  · rw [Bool.not_eq_true] at hk
    refine ⟨?_, ?_, fun htrue => ?_, fun _ e he => ?_, fun _ text ht hl => ?_⟩
    · rw [if_neg (by simp [hk])]
      cases service with
      | error e => rw [call_openai_error goal weeks mentor_style pick apiKey json_loads hk e]
      | ok text =>
          rw [call_openai_ok goal weeks mentor_style pick apiKey json_loads hk text]
          cases json_loads (extract_json_span text.trim.data) with
          | some p => rfl
          | none => rfl
    · cases service with
      | error e =>
          rw [call_openai_error goal weeks mentor_style pick apiKey json_loads hk e]
      | ok text =>
          rw [call_openai_ok goal weeks mentor_style pick apiKey json_loads hk text]
          cases json_loads (extract_json_span text.trim.data) with
          | some p => exact Nat.le_refl 1
          | none => exact Nat.le_refl 1
    · rw [hk] at htrue
      exact absurd htrue (by simp)
    · rw [he, call_openai_error goal weeks mentor_style pick apiKey json_loads hk e]
    · rw [ht, call_openai_ok goal weeks mentor_style pick apiKey json_loads hk text, hl]

/-- Witness for C4 with a configured key and a raising call: one attempt,
warning surfaced, fallback returned. -/
theorem C4_generator_fallback_witness :
    key_missing (some "k") = false
    ∧ call_openai_for_plan "g" 4 "m" (fun _ => 0) (some "k") (Except.error "boom")
        (fun _ => none)
      = ⟨fallback_plan "g" 4 "m" (fun _ => 0), true, 1⟩ :=
  ⟨by decide,
   (C4_generator_fallback "g" 4 "m" (fun _ => 0) (some "k") (Except.error "boom")
     (fun _ => none)).2.2.2.1 (by decide) "boom" rfl⟩

/-- Witness for C10 at weeks = -3. -/
theorem C10_fallback_nonpositive_weeks_witness :
    (-3 : Int) ≤ 0
    ∧ ((max 1 (-3 : Int)).toNat = 1
       ∧ (fallback_plan "g" (-3) "m" (fun _ => 0)).weeks.map Prod.fst = ["Week 1"]
       ∧ (fallback_plan "g" (-3) "m" (fun _ => 0)).milestones = ["Foundation - Week 1"]) :=
  ⟨by decide, C10_fallback_nonpositive_weeks "g" "m" (fun _ => 0) (-3) (by decide)⟩

end Agentic
